import Mathlib

/-!
Verification of the Data-Analysis-Agent web client.

This file gives a shallow embedding, in Lean 4, of the client-side
auth/session layer (AuthContext in the repository), the backend client
(services/api.ts) and the conversation controller shared by
components/Chat.tsx and components/AgentPage.tsx, and proves the
specified properties about it.

Modelling conventions:
  - browser localStorage entries are modelled by small inductive types
    distinguishing an absent key, a key whose text JSON.parse rejects,
    a key parsing to a value without the expected array shape, and a
    well-formed value; JavaScript exceptions (SyntaxError from
    JSON.parse, TypeError from calling .find on a non-array) appear as
    the error side of Except;
  - randomly generated identifiers (crypto.randomUUID, the
    Math.random message ids) and timestamps (new Date()) enter as
    explicit parameters;
  - the single network round trip of one send is represented by an
    ApiResult parameter: the resolved AnalysisResponse or the message
    of the thrown Error;
  - JavaScript string truthiness (undefined and the empty string are
    falsy) is modelled by truthyStr on Option String.
-/

/-! ## Auth layer: data model (context/AuthContext.tsx) -/

/-- A record of the persisted credential store (the users key): id, name,
email, plaintext password, and the avatar URL set at signup. The avatar is
optional because the User interface of the source declares it optional. -/
structure StoredUser where
  id : String
  name : String
  email : String
  password : String
  avatar : Option String
  deriving DecidableEq, Repr

/-- The session-safe projection of a credential record, as built by login
and signup in the source: id, name, email and avatar only. The type has no
password field, mirroring the User interface of the source. -/
structure SessionUser where
  id : String
  name : String
  email : String
  avatar : Option String
  deriving DecidableEq, Repr

/-- What JavaScript sees for the users localStorage key: the key may be
absent (getItem returns null, and the source falls back to the literal
text of an empty array), hold text JSON.parse throws on, hold valid JSON
that is not an array (so calling .find on it throws a TypeError), or hold
a well-formed array of credential records. -/
inductive UsersStoreData where
  | absent : UsersStoreData
  | invalidJson : UsersStoreData
  | nonArray : UsersStoreData
  | arr : List StoredUser → UsersStoreData
  deriving DecidableEq, Repr

/-- What JavaScript sees for the user localStorage key holding the active
session: absent (or empty, both falsy in the source's guard), text
JSON.parse throws on, or a well-formed session object. -/
inductive SessionStoreData where
  | absent : SessionStoreData
  | invalidJson : SessionStoreData
  | val : SessionUser → SessionStoreData
  deriving DecidableEq, Repr

/-- A JavaScript exception escaping the auth operations: SyntaxError from
JSON.parse on malformed text, TypeError from using a parsed non-array as
an array. -/
inductive JsError where
  | syntaxError : JsError
  | typeError : JsError
  deriving DecidableEq, Repr

/-- The state the AuthProvider owns: both persisted localStorage keys and
the in-memory user of React state (currentUser). -/
structure AuthState where
  usersStore : UsersStoreData
  sessionStore : SessionStoreData
  currentUser : Option SessionUser
  deriving DecidableEq, Repr

/-- The projection login and signup apply to a credential record before
exposing it as the session: copies id, name, email and avatar and (by the
type of SessionUser) carries no password. -/
def project (u : StoredUser) : SessionUser :=
  ⟨u.id, u.name, u.email, u.avatar⟩

/-- JSON.parse(localStorage.getItem(users-key) || text-of-empty-array), as
the source evaluates it at the top of login and signup: an absent key
parses as the empty list; malformed text throws a SyntaxError; valid
non-array JSON yields a TypeError once .find is called on it (surfaced
here at the read, which does not change what the enclosing operation
returns); a well-formed array is returned as is. -/
def readUsers : UsersStoreData → Except JsError (List StoredUser)
  | .absent => .ok []
  | .invalidJson => .error .syntaxError
  | .nonArray => .error .typeError
  | .arr l => .ok l

/-- login(email, password) of AuthContext.tsx: reads the credential
store, finds the first record whose email and password both equal the
arguments (strict string equality), and on a match sets the React user
state and persists the projection under the user key, returning true;
with no match returns false and changes nothing. Exceptions from the
store read propagate (there is no try/catch in the source). -/
def login (email password : String) (st : AuthState) :
    Except JsError (Bool × AuthState) :=
  match readUsers st.usersStore with
  | .error e => .error e
  | .ok users =>
    match users.find? (fun u => u.email == email && u.password == password) with
    | some foundUser =>
        let userData := project foundUser
        .ok (true, { st with sessionStore := .val userData,
                             currentUser := some userData })
    | none => .ok (false, st)

/-- The avatar URL signup derives from the display name. -/
def hexDigit (n : Nat) : Char :=
  (['0', '1', '2', '3', '4', '5', '6', '7', '8', '9',
    'A', 'B', 'C', 'D', 'E', 'F']).getD n '0'

/-- Percent-encoding of one byte, as encodeURIComponent writes it. -/
def percentByte (b : Nat) : String :=
  String.mk ['%', hexDigit (b / 16), hexDigit (b % 16)]

/-- The UTF-8 bytes of one character. -/
def utf8Bytes (c : Char) : List Nat :=
  let n := c.toNat
  if n < 0x80 then [n]
  else if n < 0x800 then [0xC0 + n / 0x40, 0x80 + n % 0x40]
  else if n < 0x10000 then
    [0xE0 + n / 0x1000, 0x80 + (n / 0x40) % 0x40, 0x80 + n % 0x40]
  else
    [0xF0 + n / 0x40000, 0x80 + (n / 0x1000) % 0x40,
     0x80 + (n / 0x40) % 0x40, 0x80 + n % 0x40]

/-- The characters encodeURIComponent leaves unescaped: letters, digits,
and - _ . ! ~ * ( ) together with the apostrophe (written by code point
to keep the source text plain). -/
def uriUnreserved (c : Char) : Bool :=
  c.isAlpha || c.isDigit ||
    ['-', '_', '.', '!', '~', '*', Char.ofNat 39, '(', ')'].contains c

/-- encodeURIComponent of the JavaScript runtime, restricted to its
documented behaviour: unreserved characters pass through, every other
character is written as the percent-encoding of its UTF-8 bytes. -/
def encodeURIComponent (s : String) : String :=
  s.data.foldl
    (fun acc c =>
      acc ++ (if uriUnreserved c then c.toString
              else String.join ((utf8Bytes c).map percentByte))) ""

/-- The avatar URL signup builds from the name. -/
def avatarUrl (name : String) : String :=
  "https://api.dicebear.com/7.x/initials/svg?seed=" ++ encodeURIComponent name

/-- signup(name, email, password) of AuthContext.tsx: reads the
credential store; if any record already carries the email, returns false
without touching anything; otherwise appends a record under a freshly
generated identifier (crypto.randomUUID, passed in here as newId) with
the derived avatar URL, persists the grown store, and logs the new
identity in (session persisted, React user state set), returning true.
Exceptions from the store read propagate. -/
def signup (newId name email password : String) (st : AuthState) :
    Except JsError (Bool × AuthState) :=
  match readUsers st.usersStore with
  | .error e => .error e
  | .ok users =>
    if (users.find? (fun u => u.email == email)).isSome then
      .ok (false, st)
    else
      let newUser : StoredUser := ⟨newId, name, email, password, some (avatarUrl name)⟩
      let userData := project newUser
      .ok (true, { usersStore := .arr (users ++ [newUser]),
                   sessionStore := .val userData,
                   currentUser := some userData })

/-- The hydration effect of AuthProvider: reads the user key once at
mount; a falsy read (absent key) leaves the React user state null, a
well-formed value becomes the user state, and malformed text makes
JSON.parse throw out of the effect (the user state is still null then,
but the exception is not caught anywhere in the source). -/
def hydrate : SessionStoreData → Except JsError (Option SessionUser)
  | .absent => .ok none
  | .invalidJson => .error .syntaxError
  | .val u => .ok (some u)

/-- logout() of AuthContext.tsx: clears the React user state and removes
the persisted session entry; the credential store is untouched. -/
def logout (st : AuthState) : AuthState :=
  { st with sessionStore := .absent, currentUser := none }

/-! ## Backend client: data model (services/api.ts) -/

/-- An uploaded browser File, of which the client code reads only the
name. -/
structure File where
  name : String
  deriving DecidableEq, Repr

/-- One image result of an analysis response. -/
structure ImageData where
  url : String
  title : String
  description : String
  deriving DecidableEq, Repr

/-- The closed enumeration of agent kinds of services/api.ts. -/
inductive AgentType where
  | auto : AgentType
  | pdf : AgentType
  | ppt : AgentType
  | dashboard : AgentType
  | data_analysis : AgentType
  deriving DecidableEq, Repr

/-- The string each non-default agent kind is sent as (and the literal of
the default). -/
def agentTypeStr : AgentType → String
  | .auto => "auto"
  | .pdf => "pdf"
  | .ppt => "ppt"
  | .dashboard => "dashboard"
  | .data_analysis => "data_analysis"

/-- The body of the AnalysisResponse interface: the response text plus
five optional fields. -/
structure AnalysisResponse where
  response : String
  images : Option (List ImageData)
  image_paths : Option (List String)
  pdf_path : Option String
  ppt_path : Option String
  dashboard_path : Option String
  deriving DecidableEq, Repr

/-- A value appended to a multipart FormData: a plain string or a file. -/
inductive FormValue where
  | str : String → FormValue
  | fileVal : File → FormValue
  deriving DecidableEq, Repr

/-- The multipart form uploadAndAnalyze builds: the file, the prompt, and
the agent_type field appended only when the kind differs from the auto
default. -/
def uploadAndAnalyzeForm (f : File) (prompt : String) (agentType : AgentType) :
    List (String × FormValue) :=
  [("file", .fileVal f), ("prompt", .str prompt)] ++
    (if agentType ≠ .auto then [("agent_type", .str (agentTypeStr agentType))] else [])

/-- The multipart form analyzeWithExistingData builds: the prompt, and
the agent_type field appended only when the kind differs from the auto
default. -/
def analyzeWithExistingDataForm (prompt : String) (agentType : AgentType) :
    List (String × FormValue) :=
  [("prompt", .str prompt)] ++
    (if agentType ≠ .auto then [("agent_type", .str (agentTypeStr agentType))] else [])

/-! ## Conversation controller (components/Chat.tsx, components/AgentPage.tsx)

Chat.tsx and AgentPage.tsx hold the same controller state and an
identical handleSendMessage body (Chat reads the agent kind from its
selector state, AgentPage from its page prop); both are embedded once
below. Where the two files differ — the Enter-key path of the input
area — each gets its own definition. -/

/-- The role of a chat message. -/
inductive MessageRole where
  | user : MessageRole
  | assistant : MessageRole
  deriving DecidableEq, Repr

/-- The Message interface of Chat.tsx and AgentPage.tsx. Identifiers are
the Math.random tokens, timestamps the Date values, both passed in as
parameters where messages are built. -/
structure Message where
  id : String
  role : MessageRole
  content : String
  timestamp : Nat
  images : Option (List String)
  imageData : Option (List ImageData)
  pdfPath : Option String
  pptPath : Option String
  dashboardPath : Option String
  deriving DecidableEq, Repr

/-- The component state of one conversation view: message list, input
text, the loading (busy) flag, the staged file, the three
latest-artifact pointers, and the agent kind the next request is sent
with (selector state in Chat, fixed page prop in AgentPage). -/
structure ChatState where
  messages : List Message
  input : String
  loading : Bool
  uploadedFile : Option File
  latestPdf : Option String
  latestPpt : Option String
  latestDashboard : Option String
  agent : AgentType
  deriving DecidableEq, Repr

/-- The request a send dispatches: uploadAndAnalyze when a file is
staged, analyzeWithExistingData otherwise, each carrying the prompt and
the agent kind. -/
inductive Request where
  | withFile : File → String → AgentType → Request
  | noFile : String → AgentType → Request
  deriving DecidableEq, Repr

/-- The outcome of the awaited analyze call: the resolved response, or
the message of the Error the call rejected with (the api layer throws
Error with the text Analysis request failed on any non-ok status). -/
inductive ApiResult where
  | ok : AnalysisResponse → ApiResult
  | error : String → ApiResult
  deriving DecidableEq, Repr

/-- The trim of the JavaScript runtime as the send guard uses it:
leading and trailing whitespace characters removed (computable by
structural recursion, unlike the library trim). -/
def jsTrim (s : String) : String :=
  String.mk
    (((s.data.dropWhile Char.isWhitespace).reverse.dropWhile
        Char.isWhitespace).reverse)

/-- JavaScript truthiness of an optional string field: undefined and the
empty string are falsy, every other string truthy. -/
def truthyStr : Option String → Bool
  | none => false
  | some s => s ≠ ""

/-- The content of the user message a send appends: when a file is
staged the file name is prefixed to the prompt, else the prompt alone. -/
def userContent (st : ChatState) : String :=
  match st.uploadedFile with
  | some f => "📎 " ++ f.name ++ "\n\n" ++ st.input
  | none => st.input

/-- handleSendMessage of Chat.tsx and AgentPage.tsx, one whole send as
the source runs it, with the network outcome as a parameter. A blank
prompt (falsy after trim) returns at once. Otherwise the user message is
appended, the input cleared and loading set; the request variant is
chosen by the staged file. On a resolved response the staged file — if
one was sent — is cleared, each artifact pointer is overwritten only by
a truthy path field of the response, and the assistant message is
appended; on a rejected call one assistant message carrying the error
text is appended and nothing else changes. Either way loading is cleared
at the end. The dispatched request is returned alongside for the
statements about which api variant a send issues (none when no send
happened). -/
def sendMessage (uid aid : String) (tu ta : Nat) (outcome : ApiResult)
    (st : ChatState) : ChatState × Option Request :=
  if jsTrim st.input = "" then (st, none)
  else
    let userMsg : Message :=
      ⟨uid, .user, userContent st, tu, none, none, none, none, none⟩
    let st1 := { st with messages := st.messages ++ [userMsg],
                         input := "", loading := true }
    let req : Request :=
      match st.uploadedFile with
      | some f => .withFile f st.input st.agent
      | none => .noFile st.input st.agent
    match outcome with
    | .ok r =>
        let st2 :=
          match st.uploadedFile with
          | some _ => { st1 with uploadedFile := none }
          | none => st1
        let st3 := { st2 with
          latestPdf := if truthyStr r.pdf_path then r.pdf_path else st2.latestPdf,
          latestPpt := if truthyStr r.ppt_path then r.ppt_path else st2.latestPpt,
          latestDashboard :=
            if truthyStr r.dashboard_path then r.dashboard_path
            else st2.latestDashboard }
        let assistantMsg : Message :=
          ⟨aid, .assistant, r.response, ta, r.image_paths, r.images,
           r.pdf_path, r.ppt_path, r.dashboard_path⟩
        ({ st3 with messages := st3.messages ++ [assistantMsg],
                    loading := false }, some req)
    | .error m =>
        let errorMsg : Message :=
          ⟨aid, .assistant, "Error: " ++ m, ta, none, none, none, none, none⟩
        ({ st1 with messages := st1.messages ++ [errorMsg],
                    loading := false }, some req)

/-- The Enter-key path of the Chat.tsx textarea: the handler submits
only when the trimmed input is non-blank and the view is not loading
(and the textarea is disabled while loading anyway). -/
def chatKeyDownEnter (uid aid : String) (tu ta : Nat) (outcome : ApiResult)
    (st : ChatState) : ChatState × Option Request :=
  if jsTrim st.input ≠ "" && !st.loading then
    sendMessage uid aid tu ta outcome st
  else (st, none)

/-- The Enter-key path of the AgentPage.tsx textarea: the handler calls
handleSendMessage unconditionally — there is no loading check and the
textarea carries no disabled attribute. -/
def agentKeyDownEnter (uid aid : String) (tu ta : Nat) (outcome : ApiResult)
    (st : ChatState) : ChatState × Option Request :=
  sendMessage uid aid tu ta outcome st

/-- handleClearChat of Chat.tsx: when the confirm dialog is accepted,
one handler invocation empties the message list, drops the staged file
and nulls all three latest-artifact pointers; a declined dialog changes
nothing. -/
def handleClearChat (confirmed : Bool) (st : ChatState) : ChatState :=
  if confirmed then
    { st with messages := [], uploadedFile := none,
              latestPdf := none, latestPpt := none, latestDashboard := none }
  else st

/-! ## Sample values used by closed statements -/

/-- A sample credential record. -/
def alice : StoredUser :=
  ⟨"id-1", "Alice", "alice@example.com", "secret1", some "http://a/avatar"⟩

/-- A state whose credential store holds malformed text. -/
def malformedAuthState : AuthState := ⟨.invalidJson, .absent, none⟩

/-- A sample successful response with no artifact fields. -/
def okResp : AnalysisResponse := ⟨"done", none, none, none, none, none⟩

/-- A conversation state with a staged file and a non-blank prompt. -/
def fileSt : ChatState :=
  ⟨[], "analyze this", false, some ⟨"data.csv"⟩, none, none, none, .auto⟩

/-- A busy conversation state with a non-blank prompt and no staged
file, as AgentPage reaches it while a request is in flight and the user
keeps typing. -/
def busySt : ChatState := ⟨[], "hi", true, none, none, none, none, .data_analysis⟩

/-- An idle conversation state with a non-blank prompt, no staged file
and all three artifact pointers recorded. -/
def errSt : ChatState :=
  ⟨[], "hello", false, none, some "a.pdf", some "b.pptx", some "c.html", .auto⟩

/-- A state with a previously recorded PDF pointer. -/
def pdfSt : ChatState := ⟨[], "go", false, none, some "old.pdf", none, none, .auto⟩

/-- A response whose pdf field is present but holds the empty string. -/
def emptyPdfResp : AnalysisResponse := ⟨"done", none, none, some "", none, none⟩

/-- A response carrying only a dashboard path. -/
def dashResp : AnalysisResponse :=
  ⟨"done", none, none, none, none, some "new.html"⟩

/-- A state whose prompt is whitespace only. -/
def wsSt : ChatState := ⟨[], "   ", false, none, none, none, none, .auto⟩

/-! ## The claims -/

/-- C1: login(email, password) succeeds exactly on a stored record whose
email and password both match by exact, case-sensitive string equality;
on a match it sets currentUser to the password-free projection of the
matched record (the SessionUser type carries no password field) and
persists that projection in the session store; on no match it returns
false and leaves the whole state — currentUser, session store and
credential store — unchanged. -/
theorem login_matches_iff_credentials (l : List StoredUser)
    (sess : SessionStoreData) (cu : Option SessionUser) (email password : String) :
    ((∃ u ∈ l, u.email = email ∧ u.password = password) →
      ∃ u, u ∈ l ∧ u.email = email ∧ u.password = password ∧
        login email password ⟨.arr l, sess, cu⟩ =
          .ok (true, ⟨.arr l, .val (project u), some (project u)⟩)) ∧
    ((¬ ∃ u ∈ l, u.email = email ∧ u.password = password) →
      login email password ⟨.arr l, sess, cu⟩ =
        .ok (false, ⟨.arr l, sess, cu⟩)) := by
  constructor
  · intro h
    have hsome : (l.find? (fun u => u.email == email && u.password == password)).isSome := by
      rw [List.find?_isSome]
      obtain ⟨u, hu, he, hp⟩ := h
      exact ⟨u, hu, by simp [he, hp]⟩
    obtain ⟨u, hfind⟩ := Option.isSome_iff_exists.mp hsome
    have hmem := List.mem_of_find?_eq_some hfind
    have hpred := List.find?_some hfind
    simp only [Bool.and_eq_true, beq_iff_eq] at hpred
    refine ⟨u, hmem, hpred.1, hpred.2, ?_⟩
    simp [login, readUsers, hfind]
  · intro h
    have hnone : l.find? (fun u => u.email == email && u.password == password) = none := by
      rw [List.find?_eq_none]
      intro u hu hpu
      simp only [Bool.and_eq_true, beq_iff_eq] at hpu
      exact h ⟨u, hu, hpu.1, hpu.2⟩
    simp [login, readUsers, hnone]

/-- C2: signup(name, email, password) fails (returns false, store and
state untouched) exactly when some stored record already carries the
email; otherwise it appends exactly one record — under the generated
identifier and with the name-derived avatar URL — sets currentUser to
its password-free projection, persists that projection as the session,
and returns true; and on the grown store any further signup with the
same email fails and leaves the store unchanged, so signup succeeds
exactly once per email. -/
theorem signup_unique_email (l : List StoredUser) (sess : SessionStoreData)
    (cu : Option SessionUser) (newId name email password : String) :
    ((∃ u ∈ l, u.email = email) →
       signup newId name email password ⟨.arr l, sess, cu⟩ =
         .ok (false, ⟨.arr l, sess, cu⟩)) ∧
    ((¬ ∃ u ∈ l, u.email = email) →
       signup newId name email password ⟨.arr l, sess, cu⟩ =
         .ok (true,
           ⟨.arr (l ++ [⟨newId, name, email, password, some (avatarUrl name)⟩]),
            .val (project ⟨newId, name, email, password, some (avatarUrl name)⟩),
            some (project ⟨newId, name, email, password, some (avatarUrl name)⟩)⟩) ∧
       (∀ newId2 name2 password2 (sess2 : SessionStoreData) (cu2 : Option SessionUser),
         signup newId2 name2 email password2
           ⟨.arr (l ++ [⟨newId, name, email, password, some (avatarUrl name)⟩]),
            sess2, cu2⟩ =
           .ok (false,
             ⟨.arr (l ++ [⟨newId, name, email, password, some (avatarUrl name)⟩]),
              sess2, cu2⟩))) := by
  constructor
  · intro h
    have hsome : (l.find? (fun u => u.email == email)).isSome := by
      rw [List.find?_isSome]
      obtain ⟨u, hu, he⟩ := h
      exact ⟨u, hu, by simp [he]⟩
    simp [signup, readUsers, hsome]
  · intro h
    have hnone : l.find? (fun u => u.email == email) = none := by
      rw [List.find?_eq_none]
      intro u hu hpu
      simp only [beq_iff_eq] at hpu
      exact h ⟨u, hu, hpu⟩
    refine ⟨by simp [signup, readUsers, hnone], ?_⟩
    intro newId2 name2 password2 sess2 cu2
    have hsome2 :
        ((l ++ [(⟨newId, name, email, password, some (avatarUrl name)⟩ : StoredUser)]).find?
          (fun u => u.email == email)).isSome := by
      rw [List.find?_isSome]
      exact ⟨⟨newId, name, email, password, some (avatarUrl name)⟩,
        by simp, by simp⟩
    simp [signup, readUsers, hsome2]

/-- C3 counterexample: at a concrete state whose credential store holds
malformed text, login propagates the JSON.parse SyntaxError instead of
returning false: the claim that login never raises on malformed stored
data fails. -/
theorem malformed_login_raises_cex :
    login "alice@example.com" "secret1" malformedAuthState = .error .syntaxError ∧
    signup "id-2" "Bob" "bob@example.com" "pw" malformedAuthState =
      .error .syntaxError ∧
    hydrate .invalidJson = .error .syntaxError := by
  exact ⟨rfl, rfl, rfl⟩

/-- C3 amended: only an absent persisted entry is treated as absence —
login then scans an empty list and returns false unchanged, signup
treats the store as empty, and hydration leaves currentUser null.
Malformed persisted text is not handled anywhere: JSON.parse throws, so
login and signup propagate a SyntaxError (a parsed non-array store
raises a TypeError at the array scan) and session hydration propagates
a SyntaxError out of the mount effect; currentUser is still null then
only because the exception precedes the assignment. -/
theorem storage_absent_vs_malformed (sess : SessionStoreData)
    (cu : Option SessionUser) (newId name email password : String) :
    (login email password ⟨.absent, sess, cu⟩ = .ok (false, ⟨.absent, sess, cu⟩)) ∧
    (signup newId name email password ⟨.absent, sess, cu⟩ =
       .ok (true,
         ⟨.arr [⟨newId, name, email, password, some (avatarUrl name)⟩],
          .val (project ⟨newId, name, email, password, some (avatarUrl name)⟩),
          some (project ⟨newId, name, email, password, some (avatarUrl name)⟩)⟩)) ∧
    (hydrate .absent = .ok none) ∧
    (login email password ⟨.invalidJson, sess, cu⟩ = .error .syntaxError) ∧
    (signup newId name email password ⟨.invalidJson, sess, cu⟩ =
       .error .syntaxError) ∧
    (login email password ⟨.nonArray, sess, cu⟩ = .error .typeError) ∧
    (signup newId name email password ⟨.nonArray, sess, cu⟩ = .error .typeError) ∧
    (hydrate .invalidJson = .error .syntaxError) := by
  refine ⟨rfl, ?_, rfl, rfl, rfl, rfl, rfl, rfl⟩
  simp [signup, readUsers]

/-- C4 counterexample: at a concrete state with a staged file and a
non-blank prompt, a send whose request fails leaves the staged file in
place: the claim that the staged-file slot is empty after dispatch
regardless of whether the request succeeds or fails is false — the
source clears the slot only after the awaited call resolves. -/
theorem send_failure_retains_file_cex :
    ((sendMessage "u1" "a1" 0 1 (.error "Analysis request failed") fileSt).1).uploadedFile =
      some ⟨"data.csv"⟩ := by
  rfl

/-- C4 amended: a send of a non-blank prompt with a staged file
dispatches the file-upload analyze variant carrying that file, the
prompt and the agent kind, and the staged-file slot is cleared when the
request resolves successfully; when the request fails the staged file is
retained (the source clears the slot only after the awaited upload call
returns). A send with no staged file dispatches the no-file variant. -/
theorem send_staged_file_lifecycle (uid aid : String) (tu ta : Nat)
    (st : ChatState) (r : AnalysisResponse) (em : String)
    (h : jsTrim st.input ≠ "") :
    (∀ f, st.uploadedFile = some f →
       (sendMessage uid aid tu ta (.ok r) st).2 =
         some (.withFile f st.input st.agent) ∧
       ((sendMessage uid aid tu ta (.ok r) st).1).uploadedFile = none ∧
       (sendMessage uid aid tu ta (.error em) st).2 =
         some (.withFile f st.input st.agent) ∧
       ((sendMessage uid aid tu ta (.error em) st).1).uploadedFile = some f) ∧
    (st.uploadedFile = none →
       (sendMessage uid aid tu ta (.ok r) st).2 = some (.noFile st.input st.agent) ∧
       (sendMessage uid aid tu ta (.error em) st).2 =
         some (.noFile st.input st.agent)) := by
  constructor
  · intro f hf
    refine ⟨?_, ?_, ?_, ?_⟩ <;> simp [sendMessage, h, hf]
  · intro hf
    refine ⟨?_, ?_⟩ <;> simp [sendMessage, h, hf]

/-- C4 witness: the amended lifecycle at a concrete state with staged
file data.csv and the prompt analyze this. -/
theorem send_staged_file_lifecycle_witness :
    (sendMessage "u1" "a1" 0 1 (.ok okResp) fileSt).2 =
      some (.withFile ⟨"data.csv"⟩ "analyze this" .auto) ∧
    ((sendMessage "u1" "a1" 0 1 (.ok okResp) fileSt).1).uploadedFile = none ∧
    ((sendMessage "u1" "a1" 0 1
        (.error "Analysis request failed") fileSt).1).uploadedFile =
      some ⟨"data.csv"⟩ := by
  have h := send_staged_file_lifecycle "u1" "a1" 0 1 fileSt okResp
    "Analysis request failed" (by decide)
  obtain ⟨h1, -⟩ := h
  obtain ⟨ha, hb, -, hd⟩ := h1 ⟨"data.csv"⟩ rfl
  exact ⟨ha, hb, hd⟩

/-- C10: submitting a whitespace-only (or empty) prompt is a complete
no-op: the state is returned unchanged — no message appended, busy
untouched, staged file and artifact pointers intact — and no request is
dispatched. -/
theorem blank_prompt_send_noop (uid aid : String) (tu ta : Nat)
    (outcome : ApiResult) (st : ChatState) (h : jsTrim st.input = "") :
    sendMessage uid aid tu ta outcome st = (st, none) := by
  simp [sendMessage, h]

/-- C10 witness: a send at a concrete state whose prompt is three
spaces changes nothing and dispatches nothing. -/
theorem blank_prompt_send_noop_witness :
    sendMessage "u1" "a1" 0 1 (.error "x") wsSt = (wsSt, none) :=
  blank_prompt_send_noop "u1" "a1" 0 1 (.error "x") wsSt (by decide)

/-- C5: at a concrete busy state (request in flight, non-blank prompt)
the Chat.tsx Enter path is inert, but the AgentPage.tsx Enter path —
whose handler has no loading check and whose textarea is never
disabled — runs the full send: it appends messages and dispatches a
second analyze request while the first is still in flight. The
claimed one-in-flight guarantee is broken by AgentPage even though its
send button is disabled while loading, so the missing check in its
key handler contradicts the intent visible elsewhere in the same
component and in Chat.tsx. -/
theorem busy_send_not_inert :
    chatKeyDownEnter "u1" "a1" 0 1 (.ok okResp) busySt = (busySt, none) ∧
    (agentKeyDownEnter "u1" "a1" 0 1 (.ok okResp) busySt).2 =
      some (.noFile "hi" .data_analysis) ∧
    ((agentKeyDownEnter "u1" "a1" 0 1 (.ok okResp) busySt).1).messages.length = 2 := by
  refine ⟨?_, ?_, ?_⟩ <;> rfl

/-- C6: when the in-flight request of a send fails, exactly one
assistant message — whose content is the Error: prefix followed by the
error text — is appended after the user message of that send, busy is
cleared, and nothing else changes: the record equality keeps the staged
file, all three latest-artifact pointers, the agent kind and every
previously appended message at their prior values. -/
theorem failed_send_appends_one_error_message (uid aid : String) (tu ta : Nat)
    (st : ChatState) (em : String) (h : jsTrim st.input ≠ "") :
    (sendMessage uid aid tu ta (.error em) st).1 =
      { st with
          messages := st.messages ++
            [⟨uid, .user, userContent st, tu, none, none, none, none, none⟩,
             ⟨aid, .assistant, "Error: " ++ em, ta, none, none, none, none, none⟩],
          input := "", loading := false } := by
  simp [sendMessage, h]

/-- C6 witness: a failed send at a concrete idle state with prompt
hello and all three artifact pointers recorded appends the user message
and one Error assistant message and leaves the pointers as they were. -/
theorem failed_send_appends_one_error_message_witness :
    (sendMessage "u1" "a1" 5 6 (.error "Analysis request failed") errSt).1 =
      { errSt with
          messages :=
            [⟨"u1", .user, "hello", 5, none, none, none, none, none⟩,
             ⟨"a1", .assistant, "Error: Analysis request failed", 6,
              none, none, none, none, none⟩],
          input := "", loading := false } := by
  have h := failed_send_appends_one_error_message "u1" "a1" 5 6 errSt
    "Analysis request failed" (by decide)
  simpa [errSt, userContent] using h

/-- C7 counterexample: a successful response whose pdf field is present
but holds the empty string does not overwrite a previously recorded PDF
pointer, because the source guards each update with JavaScript
truthiness and the empty string is falsy: the claim that a pointer is
overwritten whenever the corresponding field is present is false. -/
theorem present_empty_pdf_not_overwritten_cex :
    emptyPdfResp.pdf_path = some "" ∧
    (sendMessage "u1" "a1" 0 1 (.ok emptyPdfResp) pdfSt).1.latestPdf =
      some "old.pdf" := by
  exact ⟨rfl, rfl⟩

/-- C7 amended: on a successful response each of the three
latest-artifact pointers is overwritten exactly when the corresponding
field of the response is present with a non-empty value; a field that is
absent — or present but empty, which JavaScript truthiness treats the
same way — leaves that pointer at its prior value, independently of the
other two. -/
theorem success_updates_truthy_pointers (uid aid : String) (tu ta : Nat)
    (st : ChatState) (r : AnalysisResponse) (h : jsTrim st.input ≠ "") :
    (r.pdf_path = none →
       (sendMessage uid aid tu ta (.ok r) st).1.latestPdf = st.latestPdf) ∧
    (r.pdf_path = some "" →
       (sendMessage uid aid tu ta (.ok r) st).1.latestPdf = st.latestPdf) ∧
    (∀ s, r.pdf_path = some s → s ≠ "" →
       (sendMessage uid aid tu ta (.ok r) st).1.latestPdf = some s) ∧
    (r.ppt_path = none →
       (sendMessage uid aid tu ta (.ok r) st).1.latestPpt = st.latestPpt) ∧
    (r.ppt_path = some "" →
       (sendMessage uid aid tu ta (.ok r) st).1.latestPpt = st.latestPpt) ∧
    (∀ s, r.ppt_path = some s → s ≠ "" →
       (sendMessage uid aid tu ta (.ok r) st).1.latestPpt = some s) ∧
    (r.dashboard_path = none →
       (sendMessage uid aid tu ta (.ok r) st).1.latestDashboard =
         st.latestDashboard) ∧
    (r.dashboard_path = some "" →
       (sendMessage uid aid tu ta (.ok r) st).1.latestDashboard =
         st.latestDashboard) ∧
    (∀ s, r.dashboard_path = some s → s ≠ "" →
       (sendMessage uid aid tu ta (.ok r) st).1.latestDashboard = some s) := by
  refine ⟨?_, ?_, ?_, ?_, ?_, ?_, ?_, ?_, ?_⟩ <;>
    first
      | (intro hp
         cases hu : st.uploadedFile <;>
           simp [sendMessage, truthyStr, h, hp, hu])
      | (intro s hp hs
         cases hu : st.uploadedFile <;>
           simp [sendMessage, truthyStr, h, hp, hs, hu])

/-- C7 witness: a response carrying only a dashboard path, applied at a
concrete state with recorded PDF and deck pointers, overwrites the
dashboard pointer alone and leaves the other two at their prior
values. -/
theorem success_updates_truthy_pointers_witness :
    (sendMessage "u1" "a1" 5 6 (.ok dashResp) errSt).1.latestPdf = some "a.pdf" ∧
    (sendMessage "u1" "a1" 5 6 (.ok dashResp) errSt).1.latestPpt = some "b.pptx" ∧
    (sendMessage "u1" "a1" 5 6 (.ok dashResp) errSt).1.latestDashboard =
      some "new.html" := by
  have h := success_updates_truthy_pointers "u1" "a1" 5 6 errSt dashResp (by decide)
  exact ⟨h.1 rfl, h.2.2.2.1 rfl, h.2.2.2.2.2.2.2.2 "new.html" rfl (by decide)⟩

/-- C8: the confirmed clear-chat action resets the message list, the
staged file and all three latest-artifact pointers to empty in the one
state transition of a single handler invocation — no intermediate state
exists in the model — while the input text, the busy flag and the agent
kind keep their prior values; a declined confirmation changes nothing. -/
theorem clear_chat_atomic_reset (st : ChatState) :
    handleClearChat true st =
      { st with messages := [], uploadedFile := none,
                latestPdf := none, latestPpt := none, latestDashboard := none } ∧
    (handleClearChat true st).messages = [] ∧
    (handleClearChat true st).uploadedFile = none ∧
    (handleClearChat true st).latestPdf = none ∧
    (handleClearChat true st).latestPpt = none ∧
    (handleClearChat true st).latestDashboard = none ∧
    (handleClearChat true st).input = st.input ∧
    (handleClearChat true st).loading = st.loading ∧
    (handleClearChat true st).agent = st.agent ∧
    handleClearChat false st = st :=
  ⟨rfl, rfl, rfl, rfl, rfl, rfl, rfl, rfl, rfl, rfl⟩

/-- C9: in both multipart forms the backend client builds — with and
without a file — the agent_type field appears exactly when the agent
kind differs from the auto default, its value is then the kind written
as one of data_analysis, pdf, ppt, dashboard, and for the auto kind the
field is omitted entirely. -/
theorem agent_type_field_iff_not_auto (f : File) (prompt : String)
    (a : AgentType) :
    (((uploadAndAnalyzeForm f prompt a).any (fun e => e.1 == "agent_type")) = true
       ↔ a ≠ .auto) ∧
    (((analyzeWithExistingDataForm prompt a).any (fun e => e.1 == "agent_type")) = true
       ↔ a ≠ .auto) ∧
    ((uploadAndAnalyzeForm f prompt a).filter (fun e => e.1 == "agent_type") =
       if a = .auto then [] else [("agent_type", .str (agentTypeStr a))]) ∧
    ((analyzeWithExistingDataForm prompt a).filter (fun e => e.1 == "agent_type") =
       if a = .auto then [] else [("agent_type", .str (agentTypeStr a))]) ∧
    (a = .auto ∨ agentTypeStr a = "data_analysis" ∨ agentTypeStr a = "pdf" ∨
       agentTypeStr a = "ppt" ∨ agentTypeStr a = "dashboard") := by
  cases a <;>
    simp [uploadAndAnalyzeForm, analyzeWithExistingDataForm, agentTypeStr]
